import Mathlib

/-!
Verification of the parking-occupancy dashboard's capture-and-inference core
(`dashboard/yolo_service.py`) against its natural-language specification.

The Python module is shallowly embedded: pure functions become Lean functions,
image bytes become `List Nat` (each element a byte value), Python strings become
Lean `String`, external effects (subprocess runs, camera devices, network and
file system) become explicit outcome parameters, and raised exceptions become
`Except String` results.  The floating-point expression
`int(round((occupied / total) * 100))` is modelled by exact integer arithmetic
with Python's round-half-to-even rule applied to the exact rational value.
-/

namespace ParkingCapstone

/-! ## Python string primitives

`pyLower` models `str.lower` (ASCII case folding, which covers every label the
model emits), and `pyIn needle hay` models Python's substring test
`needle in hay`. -/

/-- Boolean test that `p` is an initial segment of `l`. -/
def prefB : List Char → List Char → Bool
  | [], _ => true
  | _ :: _, [] => false
  | a :: as, b :: bs => a == b && prefB as bs

/-- Boolean test that `needle` occurs contiguously inside `hay`
(Python's `needle in hay` on strings). -/
def subB (needle : List Char) : List Char → Bool
  | [] => needle.isEmpty
  | c :: cs => prefB needle (c :: cs) || subB needle cs

/-- Python `str.lower()` (ASCII folding). -/
def pyLower (s : String) : String := ⟨s.data.map Char.toLower⟩

/-- Python `needle in hay` on strings. -/
def pyIn (needle hay : String) : Bool := subB needle.data hay.data

/-! ## Statistics Reducer (`_extract_occupancy_stats`) -/

/-- One YOLO result: `names` is the class-id-to-label mapping and
`class_ids` the detected class ids (`boxes.cls`, after `int()` truncation). -/
structure YoloResult where
  names : List (Nat × String)
  class_ids : List Nat
deriving DecidableEq, Repr

/-- `names.get(int(cid), "")`: the label of a class id, `""` when absent. -/
def labelFor (names : List (Nat × String)) (cid : Nat) : String :=
  match names.lookup cid with
  | some s => s
  | none => ""

/-- The mutable `counts` dictionary of the reducer's loop. -/
structure Counts where
  occupied : Nat
  empty : Nat
  lots : Nat
deriving DecidableEq, Repr

/-- Loop body of `_extract_occupancy_stats`: classify one label
(case-insensitively) and bump the matching counter, first match wins in the
order empty, occup, lot; no keyword leaves the counts unchanged. -/
def countLabel (c : Counts) (rawLabel : String) : Counts :=
  let label := pyLower rawLabel
  if pyIn "empty" label then { c with empty := c.empty + 1 }
  else if pyIn "occup" label then { c with occupied := c.occupied + 1 }
  else if pyIn "lot" label then { c with lots := c.lots + 1 }
  else c

/-- The occupancy-statistics record returned by the reducer. -/
structure Stats where
  occupied : Nat
  empty : Nat
  total_spaces : Nat
  occupancy_rate : Nat
  lots_detected : Nat
deriving DecidableEq, Repr

/-- Python `int(round(n / d))` for nonnegative integers with `d > 0`:
round half to even on the exact rational value `n / d`. -/
def pyRoundDiv (n d : Nat) : Nat :=
  if 2 * (n % d) < d then n / d
  else if d < 2 * (n % d) then n / d + 1
  else if (n / d) % 2 = 0 then n / d else n / d + 1

/-- `_extract_occupancy_stats`: count occupied/empty/lot detections from a
YOLO result and derive the occupancy rate. -/
def extract_occupancy_stats (result : YoloResult) : Stats :=
  let counts := result.class_ids.foldl
    (fun c cid => countLabel c (labelFor result.names cid)) ⟨0, 0, 0⟩
  let total_spaces := counts.occupied + counts.empty
  let occupancy_rate :=
    if total_spaces ≠ 0 then pyRoundDiv (counts.occupied * 100) total_spaces else 0
  { occupied := counts.occupied
    empty := counts.empty
    total_spaces := total_spaces
    occupancy_rate := occupancy_rate
    lots_detected := counts.lots }

/-- Rounding a quotient `n / d` never exceeds `k` when `n ≤ k * d`. -/
theorem pyRoundDiv_le (n d k : Nat) (hd : 0 < d) (h : n ≤ k * d) :
    pyRoundDiv n d ≤ k := by
  have hdm : d * (n / d) + n % d = n := Nat.div_add_mod n d
  have hq : n / d ≤ k := by
    have h2 := Nat.div_le_div_right (c := d) h
    rwa [Nat.mul_div_cancel _ hd] at h2
  have hstep : ¬ 2 * (n % d) < d → n / d + 1 ≤ k := by
    intro hr
    rcases Nat.lt_or_ge (n / d) k with h' | h'
    · exact h'
    · exfalso
      have hk : k = n / d := Nat.le_antisymm h' hq
      subst hk
      rw [Nat.mul_comm (n / d) d] at h
      omega
  unfold pyRoundDiv
  split
  · exact hq
  · split
    · exact hstep (by omega)
    · split
      · exact hq
      · exact hstep (by omega)

/-! ## Capture Backend Adapters and Capture Orchestrator

The external world (executable lookup, subprocess runs, camera devices, the
temp file) is an explicit outcome parameter per adapter attempt; raised
`RuntimeError`s become `Except.error` carrying the exact message built by the
source. -/

/-- Outcome of the `subprocess.run` call of the rpicam adapter:
it completed with a return code and (stripped) stderr text, timed out, or
raised some other exception. -/
inductive RpProc where
  | completed (returncode : Int) (stderrStripped : String)
  | timedOut
  | raised (msg : String)
deriving DecidableEq, Repr

/-- One attempt of the dedicated-utility adapter (`rpicam-still`): the process
outcome, whether the output file exists afterwards, and its bytes. -/
structure RpicamAttempt where
  proc : RpProc
  fileWritten : Bool
  data : List Nat
deriving DecidableEq, Repr

/-- The `rpicam-still` branch of `capture_frame`, as a single-attempt result:
`ok` with the captured bytes, or `error` with the message appended to
`errors`. -/
def rpicamResult (ra : RpicamAttempt) : Except String (List Nat) :=
  match ra.proc with
  | .completed rc se =>
    if rc == 0 && ra.fileWritten then
      if ra.data.isEmpty then .error "rpicam-still produced an empty file."
      else .ok ra.data
    else .error (if se = "" then "rpicam-still failed with unknown error" else se)
  | .timedOut => .error "rpicam-still timed out after 10 seconds"
  | .raised m => .error ("rpicam-still error: " ++ m)

/-- Outcome of one `fswebcam` subprocess run against one device. -/
inductive FsProc where
  | completed (returncode : Int) (stderrStripped : String)
  | timedOut
deriving DecidableEq, Repr

/-- One per-device attempt of the generic-webcam-utility adapter. -/
structure FsAttempt where
  proc : FsProc
  fileWritten : Bool
  data : List Nat
deriving DecidableEq, Repr

/-- Loop body of `_capture_with_fswebcam` for one device path. -/
def fsDevResult (dev : String) (a : FsAttempt) : Except String (List Nat) :=
  match a.proc with
  | .completed rc se =>
    if rc != 0 then
      .error (dev ++ ": " ++ (if se = "" then "fswebcam failed" else se))
    else if !a.fileWritten then
      .error (dev ++ ": fswebcam did not create an output file.")
    else if a.data.isEmpty then
      .error (dev ++ ": fswebcam produced an empty file.")
    else .ok a.data
  | .timedOut => .error (dev ++ ": fswebcam timed out after 12 seconds")

/-- `_capture_with_fswebcam`: raises when the executable is missing, then
tries `/dev/video1` and `/dev/video0` in order, joining the per-device
messages with `"; "` on exhaustion. -/
def capture_with_fswebcam (present : Bool) (a1 a0 : FsAttempt) :
    Except String (List Nat) :=
  if !present then .error "fswebcam is not installed."
  else
    match fsDevResult "/dev/video1" a1 with
    | .ok d => .ok d
    | .error e1 =>
      match fsDevResult "/dev/video0" a0 with
      | .ok d => .ok d
      | .error e0 => .error (e1 ++ "; " ++ e0)

/-- One per-device attempt of the direct-device adapter
(`cv2.VideoCapture`): the device did not open, opened but `read` failed, or
produced a frame whose JPEG encoding succeeded or not. -/
inductive WebAttempt where
  | notOpened
  | openedReadFail
  | openedRead (encodeOk : Bool) (data : List Nat)
deriving DecidableEq, Repr

/-- Loop body of `_capture_with_webcam` for one numbered device. -/
def webDevResult (d : Nat) (a : WebAttempt) : Except String (List Nat) :=
  match a with
  | .notOpened =>
    .error ("USB webcam not detected on /dev/video" ++ toString d ++ ".")
  | .openedReadFail =>
    .error ("USB webcam found on /dev/video" ++ toString d ++
      " but failed to capture a frame.")
  | .openedRead false _ =>
    .error ("Failed to encode captured frame from /dev/video" ++ toString d ++ ".")
  | .openedRead true data => .ok data

/-- `_capture_with_webcam`: devices 0 then 1, joining error messages with
`"; "` on exhaustion. -/
def capture_with_webcam (w0 w1 : WebAttempt) : Except String (List Nat) :=
  match webDevResult 0 w0 with
  | .ok d => .ok d
  | .error e0 =>
    match webDevResult 1 w1 with
    | .ok d => .ok d
    | .error e1 => .error (e0 ++ "; " ++ e1)

/-- Python's `"; ".join`. -/
def joinSemi : List String → String
  | [] => ""
  | [s] => s
  | s :: t :: rest => s ++ ("; " ++ joinSemi (t :: rest))

/-- `Bool` view of an `Except` succeeding. -/
def exceptOk : Except String (List Nat) → Bool
  | .ok _ => true
  | .error _ => false

/-- `capture_frame`: the Capture Orchestrator.  Tries `rpicam-still` when the
executable is present, then the `fswebcam` adapter, then the direct-device
adapter, returning the first captured image; on exhaustion it raises one
message carrying every collected failure reason joined by `"; "`. -/
def capture_frame (rpicamPresent : Bool) (ra : RpicamAttempt) (fsPresent : Bool)
    (f1 f0 : FsAttempt) (w0 w1 : WebAttempt) : Except String (List Nat) :=
  match (if rpicamPresent then some (rpicamResult ra) else none) with
  | some (.ok d) => .ok d
  | o =>
    let errors : List String :=
      match o with
      | some (.error e) => [e]
      | _ => []
    match capture_with_fswebcam fsPresent f1 f0 with
    | .ok d => .ok d
    | .error e2 =>
      match capture_with_webcam w0 w1 with
      | .ok d => .ok d
      | .error e3 =>
        .error ("No camera could capture a frame. Attempts: " ++
          joinSemi (errors ++ [e2, e3]))

/-- The rpicam adapter step succeeds: executable present and attempt ok. -/
def rpicamSucceeds (present : Bool) (ra : RpicamAttempt) : Bool :=
  present && exceptOk (rpicamResult ra)

/-! ## Camera availability probe (`camera_available`) -/

/-- Observable camera-device events: opening a numbered device, or reading a
frame from it. -/
inductive CamEv where
  | openDev (d : Nat)
  | readFrame (d : Nat)
deriving DecidableEq, Repr

/-- Whether an event is a frame read (an actual capture). -/
def isReadEv : CamEv → Bool
  | .readFrame _ => true
  | .openDev _ => false

/-- `camera_available`: true when `rpicam-still` or `fswebcam` is on the
path, otherwise when device 0 or device 1 opens; it only ever opens and
releases devices, recorded in the returned event list. -/
def camera_available (rpicamPresent fswebcamPresent dev0Opens dev1Opens : Bool) :
    Bool × List CamEv :=
  if rpicamPresent || fswebcamPresent then (true, [])
  else if dev0Opens then (true, [CamEv.openDev 0])
  else if dev1Opens then (true, [CamEv.openDev 0, CamEv.openDev 1])
  else (false, [CamEv.openDev 0, CamEv.openDev 1])

/-! ## Substring lemmas for the aggregated error message -/

/-- `subB` finds the empty needle everywhere. -/
theorem subB_nil (l : List Char) : subB [] l = true := by
  cases l <;> simp [subB, prefB, List.isEmpty]

/-- A list is a prefix of itself followed by anything. -/
theorem prefB_append (n y : List Char) : prefB n (n ++ y) = true := by
  induction n with
  | nil => rfl
  | cons a as ih => simp [prefB, ih]

/-- A needle occurs at the head of itself followed by anything. -/
theorem subB_self_append (n y : List Char) : subB n (n ++ y) = true := by
  cases n with
  | nil => exact subB_nil _
  | cons a as =>
    have h := prefB_append (a :: as) y
    simp only [List.cons_append] at h
    simp [subB, h]

/-- Occurrence is preserved by prepending. -/
theorem subB_append_left (n x l : List Char) (h : subB n l = true) :
    subB n (x ++ l) = true := by
  induction x with
  | nil => exact h
  | cons c cs ih => simp [subB, ih]

/-- Every member of a `"; "`-joined list occurs in the joined string. -/
theorem subB_joinSemi (l : List String) (m : String) (h : m ∈ l) :
    subB m.data (joinSemi l).data = true := by
  induction l with
  | nil => cases h
  | cons s rest ih =>
    rcases List.mem_cons.mp h with rfl | h'
    · cases rest with
      | nil => simpa [joinSemi] using subB_self_append m.data []
      | cons t ts =>
        simp only [joinSemi, String.data_append]
        exact subB_self_append m.data _
    · cases rest with
      | nil => cases h'
      | cons t ts =>
        simp only [joinSemi, String.data_append]
        exact subB_append_left _ _ _ (subB_append_left _ _ _ (ih h'))

/-- C1: for every detection list the reducer computes
`total_spaces = occupied + empty` and
`occupancy_rate = round(occupied / total_spaces * 100)` (Python rounding of the
exact ratio) when `total_spaces > 0`, else `0`; and the detection list
`[empty, empty, occupied]` yields exactly
`{occupied := 1, empty := 2, total_spaces := 3, occupancy_rate := 33,
lots_detected := 0}`. -/
theorem extract_stats_formula :
    (∀ r : YoloResult,
      (extract_occupancy_stats r).total_spaces =
        (extract_occupancy_stats r).occupied + (extract_occupancy_stats r).empty
      ∧ (extract_occupancy_stats r).occupancy_rate =
          (if 0 < (extract_occupancy_stats r).total_spaces then
            pyRoundDiv ((extract_occupancy_stats r).occupied * 100)
              ((extract_occupancy_stats r).total_spaces)
          else 0))
    ∧ extract_occupancy_stats ⟨[(0, "empty"), (1, "occupied")], [0, 0, 1]⟩ =
        ⟨1, 2, 3, 33, 0⟩ := by
  constructor
  · intro r
    cases hc : r.class_ids.foldl
        (fun c cid => countLabel c (labelFor r.names cid)) ⟨0, 0, 0⟩ with
    | mk occ emp lots =>
      simp only [extract_occupancy_stats, hc]
      refine ⟨trivial, ?_⟩
      by_cases h : occ + emp = 0
      · simp [h]
      · simp [h, Nat.pos_of_ne_zero h]
  · decide

/-- C2: for every detection list, `occupied + empty = total_spaces`,
`0 ≤ occupancy_rate ≤ 100`, and `total_spaces = 0` implies
`occupancy_rate = 0`; the empty detection list yields the all-zero record.
The reducer is a total Lean function, so it never fails. -/
theorem extract_stats_invariants :
    (∀ r : YoloResult,
      (extract_occupancy_stats r).occupied + (extract_occupancy_stats r).empty =
        (extract_occupancy_stats r).total_spaces
      ∧ 0 ≤ (extract_occupancy_stats r).occupancy_rate
      ∧ (extract_occupancy_stats r).occupancy_rate ≤ 100
      ∧ ((extract_occupancy_stats r).total_spaces = 0 →
          (extract_occupancy_stats r).occupancy_rate = 0))
    ∧ extract_occupancy_stats ⟨[], []⟩ = ⟨0, 0, 0, 0, 0⟩ := by
  constructor
  · intro r
    cases hc : r.class_ids.foldl
        (fun c cid => countLabel c (labelFor r.names cid)) ⟨0, 0, 0⟩ with
    | mk occ emp lots =>
      simp only [extract_occupancy_stats, hc]
      refine ⟨trivial, Nat.zero_le _, ?_, ?_⟩
      · by_cases h : occ + emp = 0
        · simp [h]
        · have hpos : 0 < occ + emp := Nat.pos_of_ne_zero h
          have hb : occ * 100 ≤ 100 * (occ + emp) := by omega
          simp only [h, if_true, if_neg, ne_eq, not_false_iff]
          simpa using pyRoundDiv_le (occ * 100) (occ + emp) 100 hpos hb
      · intro h
        simp [h]
  · decide

/-- C2 witness: applying the invariants at the empty detection list, whose
`total_spaces` is `0`, forces `occupancy_rate = 0`. -/
theorem extract_stats_invariants_witness :
    (extract_occupancy_stats ⟨[], []⟩).total_spaces = 0 ∧
    (extract_occupancy_stats ⟨[], []⟩).occupancy_rate = 0 :=
  ⟨by decide, (extract_stats_invariants.1 ⟨[], []⟩).2.2.2 (by decide)⟩

/-- C3: each detection is classified by case-insensitive substring match with
mutually exclusive branches in priority order empty, occupied, lot: a label
containing `"empty"` bumps only the empty count (even if it also contains
`"occup"` or `"lot"`), and a label matching none of the keywords leaves the
counts unchanged (no error).  The concrete result confirms a label containing
all three keywords counts as empty and an unmatched label is ignored. -/
theorem countLabel_priority :
    (∀ (c : Counts) (rawLabel : String),
      (pyIn "empty" (pyLower rawLabel) = true →
        countLabel c rawLabel = { c with empty := c.empty + 1 })
      ∧ (pyIn "empty" (pyLower rawLabel) = false →
          pyIn "occup" (pyLower rawLabel) = true →
          countLabel c rawLabel = { c with occupied := c.occupied + 1 })
      ∧ (pyIn "empty" (pyLower rawLabel) = false →
          pyIn "occup" (pyLower rawLabel) = false →
          pyIn "lot" (pyLower rawLabel) = true →
          countLabel c rawLabel = { c with lots := c.lots + 1 })
      ∧ (pyIn "empty" (pyLower rawLabel) = false →
          pyIn "occup" (pyLower rawLabel) = false →
          pyIn "lot" (pyLower rawLabel) = false →
          countLabel c rawLabel = c))
    ∧ extract_occupancy_stats ⟨[(0, "Empty_Occupied_Lot"), (1, "car")], [0, 1]⟩ =
        ⟨0, 1, 1, 0, 0⟩ := by
  constructor
  · intro c rawLabel
    refine ⟨?_, ?_, ?_, ?_⟩ <;> intros <;> simp_all [countLabel]
  · decide

/-- C3 witness: a label containing all three keywords is classified as empty
only, and the counts move accordingly. -/
theorem countLabel_priority_witness :
    countLabel ⟨5, 6, 7⟩ "Empty_Occupied_Lot" = ⟨5, 7, 7⟩ :=
  (countLabel_priority.1 ⟨5, 6, 7⟩ "Empty_Occupied_Lot").1 (by decide)

/-- C4: the orchestrator tries rpicam-still first, then fswebcam, then the
direct numbered devices 0 and 1, and returns the first success immediately:
whenever an earlier adapter succeeds, the result equals its image for every
outcome of the later adapters (so no later capture is invoked). -/
theorem capture_priority_order :
    (∀ (ra : RpicamAttempt) (fsp : Bool) (f1 f0 : FsAttempt) (w0 w1 : WebAttempt)
        (d : List Nat),
      rpicamResult ra = .ok d →
      capture_frame true ra fsp f1 f0 w0 w1 = .ok d)
    ∧ (∀ (rp : Bool) (ra : RpicamAttempt) (fsp : Bool) (f1 f0 : FsAttempt)
        (w0 w1 : WebAttempt) (d : List Nat),
      rpicamSucceeds rp ra = false →
      capture_with_fswebcam fsp f1 f0 = .ok d →
      capture_frame rp ra fsp f1 f0 w0 w1 = .ok d)
    ∧ (∀ (rp : Bool) (ra : RpicamAttempt) (fsp : Bool) (f1 f0 : FsAttempt)
        (w0 w1 : WebAttempt) (d : List Nat),
      rpicamSucceeds rp ra = false →
      exceptOk (capture_with_fswebcam fsp f1 f0) = false →
      capture_with_webcam w0 w1 = .ok d →
      capture_frame rp ra fsp f1 f0 w0 w1 = .ok d)
    ∧ (∀ (f1 f0 : FsAttempt) (d : List Nat),
      fsDevResult "/dev/video1" f1 = .ok d →
      capture_with_fswebcam true f1 f0 = .ok d)
    ∧ (∀ (w0 w1 : WebAttempt) (d : List Nat),
      webDevResult 0 w0 = .ok d →
      capture_with_webcam w0 w1 = .ok d)
    ∧ (∀ (w0 w1 : WebAttempt) (d : List Nat),
      exceptOk (webDevResult 0 w0) = false →
      webDevResult 1 w1 = .ok d →
      capture_with_webcam w0 w1 = .ok d) := by
  refine ⟨?_, ?_, ?_, ?_, ?_, ?_⟩
  · intro ra fsp f1 f0 w0 w1 d h
    simp [capture_frame, h]
  · intro rp ra fsp f1 f0 w0 w1 d h1 h2
    cases rp with
    | false => simp [capture_frame, h2]
    | true =>
      cases hr : rpicamResult ra with
      | ok d' => simp [rpicamSucceeds, exceptOk, hr] at h1
      | error e => simp [capture_frame, hr, h2]
  · intro rp ra fsp f1 f0 w0 w1 d h1 h2 h3
    cases hf : capture_with_fswebcam fsp f1 f0 with
    | ok d' => simp [hf, exceptOk] at h2
    | error e2 =>
      cases rp with
      | false => simp [capture_frame, hf, h3]
      | true =>
        cases hr : rpicamResult ra with
        | ok d' => simp [rpicamSucceeds, exceptOk, hr] at h1
        | error e => simp [capture_frame, hr, hf, h3]
  · intro f1 f0 d h
    simp [capture_with_fswebcam, h]
  · intro w0 w1 d h
    simp [capture_with_webcam, h]
  · intro w0 w1 d h1 h2
    cases hw : webDevResult 0 w0 with
    | ok d' => simp [hw, exceptOk] at h1
    | error e => simp [capture_with_webcam, hw, h2]

/-- C4 witness: with rpicam-still absent and the fswebcam attempt on
`/dev/video1` succeeding, the orchestrator returns that image even though
both direct devices would fail. -/
theorem capture_priority_order_witness :
    capture_frame false ⟨RpProc.timedOut, false, []⟩ true
      ⟨FsProc.completed 0 "", true, [7, 7]⟩ ⟨FsProc.timedOut, false, []⟩
      WebAttempt.notOpened WebAttempt.notOpened = .ok [7, 7] :=
  capture_priority_order.2.1 false ⟨RpProc.timedOut, false, []⟩ true
    ⟨FsProc.completed 0 "", true, [7, 7]⟩ ⟨FsProc.timedOut, false, []⟩
    WebAttempt.notOpened WebAttempt.notOpened [7, 7] (by decide) rfl

/-- C5: when every adapter fails, the orchestrator raises one message that
starts with the fixed header and carries the `"; "`-join of every collected
per-adapter failure message, so each individual message occurs inside it. -/
theorem capture_exhaustion (ra : RpicamAttempt) (fsp : Bool) (f1 f0 : FsAttempt)
    (w0 w1 : WebAttempt) (e1 e2 e3 : String)
    (h1 : rpicamResult ra = .error e1)
    (h2 : capture_with_fswebcam fsp f1 f0 = .error e2)
    (h3 : capture_with_webcam w0 w1 = .error e3) :
    capture_frame true ra fsp f1 f0 w0 w1 =
      .error ("No camera could capture a frame. Attempts: " ++ joinSemi [e1, e2, e3])
    ∧ subB e1.data
        ("No camera could capture a frame. Attempts: " ++ joinSemi [e1, e2, e3]).data = true
    ∧ subB e2.data
        ("No camera could capture a frame. Attempts: " ++ joinSemi [e1, e2, e3]).data = true
    ∧ subB e3.data
        ("No camera could capture a frame. Attempts: " ++ joinSemi [e1, e2, e3]).data = true := by
  refine ⟨?_, ?_, ?_, ?_⟩
  · simp [capture_frame, h1, h2, h3]
  · rw [String.data_append]
    exact subB_append_left _ _ _ (subB_joinSemi _ _ (by simp))
  · rw [String.data_append]
    exact subB_append_left _ _ _ (subB_joinSemi _ _ (by simp))
  · rw [String.data_append]
    exact subB_append_left _ _ _ (subB_joinSemi _ _ (by simp))

/-- C5 witness: rpicam-still fails with "boom", fswebcam is not installed,
neither direct device opens; the raised message contains all three collected
failure messages. -/
theorem capture_exhaustion_witness :
    capture_frame true ⟨RpProc.completed 1 "boom", false, []⟩ false
      ⟨FsProc.timedOut, false, []⟩ ⟨FsProc.timedOut, false, []⟩
      WebAttempt.notOpened WebAttempt.notOpened =
      .error ("No camera could capture a frame. Attempts: " ++
        joinSemi ["boom", "fswebcam is not installed.",
          "USB webcam not detected on /dev/video0.; USB webcam not detected on /dev/video1."])
    ∧ subB "boom".data
        ("No camera could capture a frame. Attempts: " ++
          joinSemi ["boom", "fswebcam is not installed.",
            "USB webcam not detected on /dev/video0.; USB webcam not detected on /dev/video1."]).data = true
    ∧ subB "fswebcam is not installed.".data
        ("No camera could capture a frame. Attempts: " ++
          joinSemi ["boom", "fswebcam is not installed.",
            "USB webcam not detected on /dev/video0.; USB webcam not detected on /dev/video1."]).data = true
    ∧ subB "USB webcam not detected on /dev/video0.; USB webcam not detected on /dev/video1.".data
        ("No camera could capture a frame. Attempts: " ++
          joinSemi ["boom", "fswebcam is not installed.",
            "USB webcam not detected on /dev/video0.; USB webcam not detected on /dev/video1."]).data = true :=
  capture_exhaustion ⟨RpProc.completed 1 "boom", false, []⟩ false
    ⟨FsProc.timedOut, false, []⟩ ⟨FsProc.timedOut, false, []⟩
    WebAttempt.notOpened WebAttempt.notOpened
    "boom" "fswebcam is not installed."
    "USB webcam not detected on /dev/video0.; USB webcam not detected on /dev/video1."
    rfl rfl rfl

/-- C9: `camera_available` is true exactly when rpicam-still is present, or
fswebcam is present, or device 0 or device 1 opens; its event trace never
contains a frame read, so no actual capture is performed and the result
depends only on the availability signals. -/
theorem camera_available_spec :
    ∀ rp fs d0 d1 : Bool,
      (camera_available rp fs d0 d1).1 = (rp || fs || d0 || d1)
      ∧ (camera_available rp fs d0 d1).2.all (fun e => !isReadEv e) = true := by
  decide

/-! ## Model Provisioner (`_download_model`, `get_model`) -/

/-- `_download_model`, modelling the file at `MODEL_PATH` as
`Option (List Nat)` (`none` = absent).  Parameters: whether the artifact
already exists (with its bytes), whether `raise_for_status` passes, the
`content-length` header, the stream's chunks, and `interrupt`: `some k` means
an exception strikes after `k` loop iterations.  Returns the outcome and the
final file state. -/
def download_model (fileExists0 : Bool) (content0 : List Nat) (statusOk : Bool)
    (totalSize : Nat) (chunks : List (List Nat)) (interrupt : Option Nat) :
    Except String Unit × Option (List Nat) :=
  if fileExists0 then (.ok (), some content0)
  else if !statusOk then (.error "HTTPError", none)
  else
    match dlLoop totalSize chunks 0 [] interrupt with
    | .ok content => (.ok (), some content)
    | .error _ => (.error "download interrupted", none)
where
  /-- The chunk-writing loop: skips empty chunks, accumulates bytes and the
  `downloaded` counter, stops early once `downloaded` reaches a nonzero
  `totalSize`; `error` carries the bytes written before the interrupt (the
  partial file that the `except` handler then unlinks). -/
  dlLoop (totalSize : Nat) : List (List Nat) → Nat → List Nat → Option Nat →
      Except (List Nat) (List Nat)
    | _, _, acc, some 0 => .error acc
    | [], _, acc, _ => .ok acc
    | c :: cs, downloaded, acc, interrupt =>
      let interrupt := interrupt.map (· - 1)
      if c.isEmpty then dlLoop totalSize cs downloaded acc interrupt
      else
        let acc := acc ++ c
        let downloaded := downloaded + c.length
        if totalSize ≠ 0 && decide (totalSize ≤ downloaded) then .ok acc
        else dlLoop totalSize cs downloaded acc interrupt

/-- C8: an interrupted transfer or an error status from the remote leaves no
partial artifact on disk and surfaces the error: whenever the single download
attempt fails, the final file state is `none`, and an error status fails
before any byte is written.  There is no retry: `download_model` performs at
most one attempt by construction. -/
theorem download_model_cleanup (content0 : List Nat) (statusOk : Bool)
    (totalSize : Nat) (chunks : List (List Nat)) (interrupt : Option Nat) :
    (statusOk = false →
      download_model false content0 statusOk totalSize chunks interrupt =
        (.error "HTTPError", none))
    ∧ (∀ msg, (download_model false content0 statusOk totalSize chunks interrupt).1 =
        .error msg →
      (download_model false content0 statusOk totalSize chunks interrupt).2 = none) := by
  constructor
  · intro h
    simp [download_model, h]
  · intro msg h
    by_cases hs : statusOk
    · cases hd : download_model.dlLoop totalSize chunks 0 [] interrupt with
      | ok c => simp [download_model, hs, hd] at h
      | error p => simp [download_model, hs, hd]
    · simp [download_model, hs]

/-- C8 witness: status OK, three-chunk stream, exception after the second
chunk: the attempt fails and no partial file remains. -/
theorem download_model_cleanup_witness :
    (download_model false [] true 6 [[1, 2], [3, 4], [5, 6]] (some 2)).1 =
      .error "download interrupted"
    ∧ (download_model false [] true 6 [[1, 2], [3, 4], [5, 6]] (some 2)).2 = none :=
  ⟨rfl, (download_model_cleanup [] true 6 [[1, 2], [3, 4], [5, 6]] (some 2)).2
    "download interrupted" rfl⟩

/-- `get_model` acting on the module-level `_model` cell
(`Option Nat`, a handle identifier): returns the handle, the new cell state,
and whether the `_download_model` step ran during this call. -/
def get_model (st : Option Nat) (freshHandle : Nat) : Nat × Option Nat × Bool :=
  match st with
  | some m => (m, some m, false)
  | none => (freshHandle, some freshHandle, true)

/-- C7: once a handle is cached, every subsequent call returns the identical
handle, leaves the cache unchanged, and does not invoke the download step
(the only network/disk I/O of the provisioner); in particular any call right
after any other call behaves that way. -/
theorem get_model_cached :
    (∀ (m fresh : Nat), get_model (some m) fresh = (m, some m, false))
    ∧ (∀ (st : Option Nat) (fresh fresh' : Nat),
      (get_model ((get_model st fresh).2.1) fresh').1 = (get_model st fresh).1
      ∧ (get_model ((get_model st fresh).2.1) fresh').2.1 = (get_model st fresh).2.1
      ∧ (get_model ((get_model st fresh).2.1) fresh').2.2 = false) := by
  constructor
  · intro m fresh
    rfl
  · intro st fresh fresh'
    cases st <;> exact ⟨rfl, rfl, rfl⟩

/-! ## Inference Engine (`run_inference`) -/

/-- Observable steps of one `run_inference` call, in execution order. -/
inductive InfEv where
  | evGetModel
  | evDecode
  | evPredict
  | evPlot
  | evEncode
deriving DecidableEq, Repr

/-- `run_inference`: obtains the model, decodes the input bytes
(`decoded = none` models `cv2.imdecode` returning no frame for the given
input), predicts, reduces statistics, plots and re-encodes.  Returns the
outcome paired with the trace of steps executed. -/
def run_inference (modelOk : Bool) (decoded : Option Nat) (result : YoloResult)
    (encodeOk : Bool) (plotted : List Nat) :
    Except String (List Nat × Stats) × List InfEv :=
  if !modelOk then (.error "ProvisioningError", [InfEv.evGetModel])
  else
    match decoded with
    | none => (.error "Invalid image data", [InfEv.evGetModel, InfEv.evDecode])
    | some _ =>
      let stats := extract_occupancy_stats result
      if !encodeOk then
        (.error "Failed to encode result image",
          [InfEv.evGetModel, InfEv.evDecode, InfEv.evPredict, InfEv.evPlot,
            InfEv.evEncode])
      else
        (.ok (plotted, stats),
          [InfEv.evGetModel, InfEv.evDecode, InfEv.evPredict, InfEv.evPlot,
            InfEv.evEncode])

/-- C6 counterexample: on undecodable bytes `run_inference` does fail with the
decode error and returns no statistics, but the first step it executes is
obtaining the model handle, not decoding: the claim that decoding happens
before the provisioner is consulted is false on the code. -/
theorem run_inference_decode_not_first :
    (run_inference true none ⟨[], []⟩ true []).2.head? ≠ some InfEv.evDecode
    ∧ (run_inference true none ⟨[], []⟩ true []).2.head? = some InfEv.evGetModel
    ∧ (run_inference true none ⟨[], []⟩ true []).1 = .error "Invalid image data" := by
  refine ⟨by decide, by decide, rfl⟩

/-- C6 amended: `run_inference` obtains the model handle first; for every
input whose bytes do not decode to a frame (and a successfully provisioned
model) it then fails with the decode error, executing exactly the
get-model and decode steps and returning no statistics (the predict, plot
and encode steps never run). -/
theorem run_inference_decode_fail (result : YoloResult) (encodeOk : Bool)
    (plotted : List Nat) :
    run_inference true none result encodeOk plotted =
      (.error "Invalid image data", [InfEv.evGetModel, InfEv.evDecode]) := by
  rfl

/-! ## Encoder (`as_data_uri`) and base64 -/

/-- The base64 alphabet in index order. -/
def b64chars : List Char :=
  "ABCDEFGHIJKLMNOPQRSTUVWXYZabcdefghijklmnopqrstuvwxyz0123456789+/".data

/-- The base64 digit for a 6-bit value. -/
def b64ch (n : Nat) : Char := b64chars.getD n 'A'

/-- Index of the first occurrence of a character (list length if absent). -/
def idxOf : List Char → Char → Nat
  | [], _ => 0
  | a :: as, c => if a == c then 0 else idxOf as c + 1

/-- The 6-bit value of a base64 digit. -/
def b64val (c : Char) : Nat := idxOf b64chars c

/-- Decoding a base64 digit inverts encoding on 6-bit values. -/
theorem b64val_b64ch : ∀ n, n < 64 → b64val (b64ch n) = n := by decide

/-- No base64 digit is the padding character. -/
theorem b64ch_ne_pad : ∀ n, n < 64 → b64ch n ≠ '=' := by decide

/-- Standard base64 encoding of a byte list (`base64.b64encode`),
three bytes to four digits with `'='` padding. -/
def b64encode : List Nat → List Char
  | [] => []
  | [a] => [b64ch (a / 4), b64ch (a % 4 * 16), '=', '=']
  | [a, b] => [b64ch (a / 4), b64ch (a % 4 * 16 + b / 16), b64ch (b % 16 * 4), '=']
  | a :: b :: c :: rest =>
    b64ch (a / 4) :: b64ch (a % 4 * 16 + b / 16) :: b64ch (b % 16 * 4 + c / 64) ::
      b64ch (c % 64) :: b64encode rest

/-- Base64 decoding, the inverse of `b64encode`; `none` on input whose shape
no encoder output has. -/
def b64decode : List Char → Option (List Nat)
  | [] => some []
  | w :: x :: y :: z :: rest =>
    if z = '=' then
      if rest.isEmpty then
        if y = '=' then some [(b64val w * 4 + b64val x / 16)]
        else some [(b64val w * 4 + b64val x / 16), (b64val x % 16 * 16 + b64val y / 4)]
      else none
    else
      match b64decode rest with
      | some bs =>
        some ((b64val w * 4 + b64val x / 16) ::
          (b64val x % 16 * 16 + b64val y / 4) ::
          (b64val y % 4 * 64 + b64val z) :: bs)
      | none => none
  | _ => none

/-- Base64 round-trip: decoding an encoded byte list recovers it exactly. -/
theorem b64_roundtrip : ∀ (bs : List Nat), (∀ x ∈ bs, x < 256) →
    b64decode (b64encode bs) = some bs
  | [], _ => rfl
  | [a], h => by
    have ha : a < 256 := h a (by simp)
    have h1 := b64val_b64ch (a / 4) (by omega)
    have h2 := b64val_b64ch (a % 4 * 16) (by omega)
    simp [b64encode, b64decode, h1, h2]
    omega
  | [a, b], h => by
    have ha : a < 256 := h a (by simp)
    have hb : b < 256 := h b (by simp)
    have h1 := b64val_b64ch (a / 4) (by omega)
    have h2 := b64val_b64ch (a % 4 * 16 + b / 16) (by omega)
    have h3 := b64val_b64ch (b % 16 * 4) (by omega)
    have hy := b64ch_ne_pad (b % 16 * 4) (by omega)
    simp [b64encode, b64decode, h1, h2, h3, hy]
    constructor <;> omega
  | a :: b :: c :: rest, h => by
    have ha : a < 256 := h a (by simp)
    have hb : b < 256 := h b (by simp)
    have hc : c < 256 := h c (by simp)
    have ih := b64_roundtrip rest (fun x hx => h x (by simp [hx]))
    have h1 := b64val_b64ch (a / 4) (by omega)
    have h2 := b64val_b64ch (a % 4 * 16 + b / 16) (by omega)
    have h3 := b64val_b64ch (b % 16 * 4 + c / 64) (by omega)
    have h4 := b64val_b64ch (c % 64) (by omega)
    have hz := b64ch_ne_pad (c % 64) (by omega)
    simp [b64encode, b64decode, h1, h2, h3, h4, hz, ih]
    refine ⟨by omega, by omega, by omega⟩

/-- `as_data_uri`: base64-encode the image bytes and prepend the fixed
data-URI header. -/
def as_data_uri (image_bytes : List Nat) : String :=
  "data:image/jpeg;base64," ++ String.mk (b64encode image_bytes)

/-- C10: for every byte sequence, `as_data_uri` is the literal header
`"data:image/jpeg;base64,"` followed by the base64 encoding of the bytes;
base64-decoding the part after the header recovers the bytes exactly; and the
encoder is injective on byte input.  It is a total Lean function, hence
deterministic and never failing, on arbitrary bytes. -/
theorem as_data_uri_spec (b : List Nat) (hb : ∀ x ∈ b, x < 256) :
    (as_data_uri b).data = "data:image/jpeg;base64,".data ++ b64encode b
    ∧ (as_data_uri b).data.take 23 = "data:image/jpeg;base64,".data
    ∧ b64decode ((as_data_uri b).data.drop 23) = some b
    ∧ (∀ b2 : List Nat, (∀ x ∈ b2, x < 256) →
        as_data_uri b2 = as_data_uri b → b2 = b) := by
  have hdata : ∀ l : List Nat,
      (as_data_uri l).data = "data:image/jpeg;base64,".data ++ b64encode l := by
    intro l
    simp [as_data_uri, String.data_append]
  have hlen : ("data:image/jpeg;base64,".data).length = 23 := by decide
  refine ⟨hdata b, ?_, ?_, ?_⟩
  · rw [hdata b, ← hlen, List.take_left]
  · rw [hdata b, ← hlen, List.drop_left]
    exact b64_roundtrip b hb
  · intro b2 hb2 he
    have h2 : (as_data_uri b2).data = (as_data_uri b).data := by rw [he]
    rw [hdata b, hdata b2] at h2
    have henc : b64encode b2 = b64encode b := List.append_cancel_left h2
    have hrt := b64_roundtrip b2 hb2
    rw [henc, b64_roundtrip b hb] at hrt
    exact (Option.some.inj hrt).symm

/-- C10 witness: the bytes of `"Man"` (77, 97, 110) round-trip through the
data URI, whose base64 payload is the classic `"TWFu"`. -/
theorem as_data_uri_spec_witness :
    b64decode ((as_data_uri [77, 97, 110]).data.drop 23) = some [77, 97, 110] :=
  (as_data_uri_spec [77, 97, 110] (by decide)).2.2.1

end ParkingCapstone
